import Mathlib

/-
Verification development for the ReAMP-Utility repository.

This file shallowly embeds the classification-and-update cycle of the
repository in Lean 4:

* `tools/ticket_classifier.py` (`TaskClassifier.classify`) — `classify`,
  `normalizeConfidence`, `pyFloat?`;
* `connectors/servicenow_connector.py` (`ServiceNowConnector.update_incident`)
  — `update_incident`, `updatePayload`;
* `app/scheduler.py` (`TaskParserScheduler.process_tickets`) —
  `processIncident`, `runIncidents`, `process_tickets`;
* `tools/output_writer.py` (`append_audit_entry`, `append_task_result`) —
  the `AuditRow` / `ResultRecord` lists threaded through the cycle;
* `tools/rollback_from_audit.py` (`main`) — `rollback_main`.

Conventions of the embedding:

* External effects are inputs: the fetched incident batch is a
  `List Incident`; the outcome of the Azure OpenAI call followed by
  `_extract_json` is an `Except String ModelResponse` supplied per incident
  by `CycleEnv.oracle` (an `Except.error` models a raised exception from the
  network call or the JSON extraction); the HTTP outcome of each PATCH is
  `CycleEnv.httpOk`; wall-clock readings are the strings `CycleEnv.runTs`
  and `CycleEnv.now`.
* Python floats are modelled as exact rationals (`ℚ`); Python `round`
  (half-to-even) is `roundHalfEven`; the decimal rendering of numbers inside
  log strings is abstracted by `fmtPercent1`.
* Files are modelled as the lists of records appended to them.  The
  best-effort `try/except` wrappers around persistence in the scheduler are
  modelled as always succeeding (a persistence failure is logged and ignored
  by the source, so it does not change counters or control flow).
* A Python dict payload is a `List (String × FieldVal)` in insertion order;
  `getField` is key lookup.
-/

namespace ReAMP

/-- A JSON-decoded value as seen by `TaskClassifier.classify` for the
`confidence` field (`jother` stands for arrays/objects, on which Python
`float()` raises). -/
inductive JVal where
  | jnull
  | jbool (b : Bool)
  | jnum (q : ℚ)
  | jstr (s : String)
  | jother
deriving DecidableEq, Repr

/-- Digits to a natural number, base 10. -/
def digitsToNat (cs : List Char) : Nat :=
  cs.foldl (fun a c => a * 10 + (c.toNat - 48)) 0

/-- Python `s.strip()` (whitespace at both ends), implemented over the
character list so that it evaluates inside the kernel. -/
def pyStrip (s : String) : String :=
  (((s.toList.dropWhile Char.isWhitespace).reverse.dropWhile Char.isWhitespace).reverse).asString

/-- Python `s.lower()`, implemented over the character list. -/
def pyLower (s : String) : String :=
  (s.toList.map Char.toLower).asString

/-- Python `s[:n]` slicing, implemented over the character list. -/
def pyTake (s : String) (n : Nat) : String :=
  (s.toList.take n).asString

/-- Python `float(s)` on a string, modelled over ℚ: optional surrounding
whitespace, optional sign, a decimal mantissa with at least one digit, and
an optional exponent part.  (The special literals `inf`/`nan` and digit
underscores accepted by CPython are outside the numeric domain of this
embedding and map to `none`.) -/
def parseFloat? (s : String) : Option ℚ :=
  let cs := (pyStrip s).toList
  let signAndRest : ℚ × List Char :=
    match cs with
    | '+' :: rest => (1, rest)
    | '-' :: rest => (-1, rest)
    | _ => (1, cs)
  let sign := signAndRest.1
  let cs1 := signAndRest.2
  let intPart := cs1.takeWhile Char.isDigit
  let cs2 := cs1.dropWhile Char.isDigit
  let fracAndRest : List Char × List Char :=
    match cs2 with
    | '.' :: rest => (rest.takeWhile Char.isDigit, rest.dropWhile Char.isDigit)
    | _ => ([], cs2)
  let fracPart := fracAndRest.1
  let cs3 := fracAndRest.2
  if intPart.isEmpty && fracPart.isEmpty then none
  else
    let mantissa : ℚ :=
      (digitsToNat intPart : ℚ) + (digitsToNat fracPart : ℚ) / ((10 : ℚ) ^ fracPart.length)
    match cs3 with
    | [] => some (sign * mantissa)
    | c :: rest =>
      if c = 'e' ∨ c = 'E' then
        let esignAndRest : ℤ × List Char :=
          match rest with
          | '+' :: r => (1, r)
          | '-' :: r => (-1, r)
          | _ => (1, rest)
        let edigits := esignAndRest.2.takeWhile Char.isDigit
        let tail := esignAndRest.2.dropWhile Char.isDigit
        if edigits.isEmpty ∨ ¬ tail.isEmpty then none
        else some (sign * mantissa * (10 : ℚ) ^ (esignAndRest.1 * (digitsToNat edigits : ℤ)))
      else none

/-- Python `float(v)` on a decoded JSON value: numbers are kept, booleans
coerce to 1/0, numeric strings parse, everything else raises (`none`). -/
def pyFloat? (v : JVal) : Option ℚ :=
  match v with
  | JVal.jnum q => some q
  | JVal.jbool b => some (if b then 1 else 0)
  | JVal.jstr s => parseFloat? s
  | JVal.jnull => none
  | JVal.jother => none

/-- Confidence normalization of `TaskClassifier.classify`
(ticket_classifier.py lines 99-114): try `float(confidence_raw)`; on failure,
a string is stripped, lowercased and matched against high/medium/low; any
other failure yields 0.0. -/
def normalizeConfidence (v : JVal) : ℚ :=
  match pyFloat? v with
  | some q => q
  | none =>
    match v with
    | JVal.jstr s =>
      let norm := pyLower (pyStrip s)
      if norm = "high" then 9/10
      else if norm = "medium" then 6/10
      else if norm = "low" then 3/10
      else 0
    | _ => 0

/-- Python truthiness of an optional string field (`None` and `""` are
falsy). -/
def truthy : Option String → Bool
  | none => false
  | some s => !(s == "")

/-- Python `x in choices` where `x` may be `None` (never a member of a list
of strings). -/
def optMem (x : Option String) (l : List String) : Bool :=
  match x with
  | some s => l.contains s
  | none => false

/-- Rendering of an optional string inside a Python f-string
(`None` prints as "None"). -/
def pyShowOpt : Option String → String
  | none => "None"
  | some s => s

/-- The JSON object extracted from the model's raw completion text, i.e. the
result of `_extract_json` in `TaskClassifier.classify`; each field is
`result.get(key)` (absent keys give `none`; `confidence` keeps its raw JSON
value, defaulted to the number 0.0 by `result.get("confidence", 0.0)`). -/
structure ModelResponse where
  category : Option String
  subcategory : Option String
  impact : Option String
  urgency : Option String
  confidence : Option JVal
deriving DecidableEq, Repr

/-- The `details` dictionary of a successful classification. -/
structure Details where
  category : String
  subcategory : Option String
  impact : String
  urgency : String
  confidence : ℚ
deriving DecidableEq, Repr

/-- Outcome of `TaskClassifier.classify`: the returned FAILED dict (empty
description), a raised exception (network/JSON/`ValueError` from enum
validation), or the returned SUCCESS dict. -/
inductive ClassifyOutcome where
  | failedDict (summary : String)
  | raised (msg : String)
  | success (d : Details)
deriving DecidableEq, Repr

/-- Whether a `ClassifyOutcome` is the SUCCESS dict
(what `result["status"] != "SUCCESS"` tests in the scheduler; a raised
exception is caught by the scheduler's generic per-incident handler). -/
def isSuccessO : ClassifyOutcome → Bool
  | ClassifyOutcome.success _ => true
  | _ => false

/-- `TaskClassifier.classify` (ticket_classifier.py lines 58-134).
`modelResult` is the outcome of `_extract_json(self._call_azure_openai(...))`:
`Except.error` models an exception raised by the network call or the JSON
extraction.  Validation order follows the source: category, then truthy
subcategory, then impact, then urgency; each violation raises `ValueError`
naming the field and the value. -/
def classify (description : String)
    (category_choices subcategory_choices impact_choices urgency_choices : List String)
    (modelResult : Except String ModelResponse) : ClassifyOutcome :=
  if description = "" then
    ClassifyOutcome.failedDict "Empty description"
  else
    match modelResult with
    | Except.error m => ClassifyOutcome.raised m
    | Except.ok r =>
      let confidence := normalizeConfidence (r.confidence.getD (JVal.jnum 0))
      if !(optMem r.category category_choices) then
        ClassifyOutcome.raised ("Model returned invalid category: " ++ pyShowOpt r.category)
      else if truthy r.subcategory && !(optMem r.subcategory subcategory_choices) then
        ClassifyOutcome.raised ("Model returned invalid subcategory: " ++ pyShowOpt r.subcategory)
      else if !(optMem r.impact impact_choices) then
        ClassifyOutcome.raised ("Model returned invalid impact: " ++ pyShowOpt r.impact)
      else if !(optMem r.urgency urgency_choices) then
        ClassifyOutcome.raised ("Model returned invalid urgency: " ++ pyShowOpt r.urgency)
      else
        ClassifyOutcome.success
          { category := (r.category).getD ""
          , subcategory := r.subcategory
          , impact := (r.impact).getD ""
          , urgency := (r.urgency).getD ""
          , confidence := confidence }

/-- Python `round(q)` for a rational: round half to even (banker's
rounding), nearest integer otherwise. -/
def roundHalfEven (q : ℚ) : ℤ :=
  let f := Int.floor q
  if q - (f : ℚ) = 1/2 then (if f % 2 = 0 then f else f + 1) else Int.floor (q + 1/2)

/-- Python `round(q, n)`: round to `n` decimal digits, half to even. -/
def roundTo (n : Nat) (q : ℚ) : ℚ :=
  (roundHalfEven (q * (10 : ℚ) ^ n) : ℚ) / (10 : ℚ) ^ n

/-- Python f-string `.1%` percent formatting, abstracted over ℚ: the value
times 100 rounded half-to-even to one decimal, rendered with a percent
sign.  Only used inside free-text log/work-note strings. -/
def fmtPercent1 (q : ℚ) : String :=
  let n := roundHalfEven (q * 1000)
  let a := n.natAbs
  (if n < 0 then "-" else "") ++ toString (a / 10) ++ "." ++ toString (a % 10) ++ "%"

/-- A value in the outgoing PATCH payload dict: ServiceNow field values are
strings; `num` stands for the `u_confidence_score` number (written with
`str(...)` in the source, whose decimal rendering is abstracted here). -/
inductive FieldVal where
  | str (s : String)
  | num (q : ℚ)
deriving DecidableEq, Repr

/-- Key lookup in a payload dict (keys are unique by construction, so
first match is the dict entry). -/
def getField (payload : List (String × FieldVal)) (k : String) : Option FieldVal :=
  match payload with
  | [] => none
  | (k2, v) :: rest => if k2 = k then some v else getField rest k

/-- `update_data[key] = value` guarded by `if value:` — the truthy-optional
fields of `ServiceNowConnector.update_incident` (assignment_group,
subcategory, impact, urgency). -/
def addIf (k : String) (v : Option String) : List (String × FieldVal) :=
  match v with
  | none => []
  | some s => if s = "" then [] else [(k, FieldVal.str s)]

/-- The default work note used when `work_notes` is falsy
(servicenow_connector.py line 267). -/
def defaultWorkNote (category : String) (confidence : ℚ) : String :=
  "Auto-classified as " ++ category ++ " (confidence: " ++ fmtPercent1 confidence
    ++ ") by Task Classifier"

/-- The `work_notes` entry value (lines 264-267): the provided note when
truthy, else the default. -/
def workNoteValue (work_notes : Option String) (category : String) (confidence : ℚ) : String :=
  match work_notes with
  | none => defaultWorkNote category confidence
  | some s => if s = "" then defaultWorkNote category confidence else s

/-- The `update_data` dict built by `ServiceNowConnector.update_incident`
(servicenow_connector.py lines 240-267), in insertion order.  The standard
`category` field is set only when `snow_category` is truthy, truncated to 40
characters; `u_confidence_score` is `round(confidence * 100, 2)`. -/
def updatePayload (category : String) (confidence : ℚ)
    (assignment_group work_notes snow_category subcategory impact urgency : Option String)
    (timestamp : String) : List (String × FieldVal) :=
  [ ("u_auto_classification_category", FieldVal.str category)
  , ("u_confidence_score", FieldVal.num (roundTo 2 (confidence * 100)))
  , ("u_auto_classified", FieldVal.str "true")
  , ("u_classification_timestamp", FieldVal.str timestamp) ]
  ++ addIf "assignment_group" assignment_group
  ++ (match snow_category with
      | none => []
      | some s => if s = "" then [] else [("category", FieldVal.str (pyTake s 40))])
  ++ addIf "subcategory" subcategory
  ++ addIf "impact" impact
  ++ addIf "urgency" urgency
  ++ [ ("work_notes", FieldVal.str (workNoteValue work_notes category confidence)) ]

/-- A PATCH request issued against the incident table. -/
structure Patch where
  ticket_id : Option String
  payload : List (String × FieldVal)
deriving DecidableEq, Repr

/-- `ServiceNowConnector.update_incident` (servicenow_connector.py lines
209-288).  In dry-run mode it logs and returns `True` without issuing any
request (`(none, true)`).  Otherwise it issues the PATCH built by
`updatePayload`; `httpOk` is the environment's answer for this request (a
non-200 response or a raised network exception both yield `false`). -/
def update_incident (dryRun : Bool) (httpOk : Bool) (ticket_id : Option String)
    (category : String) (confidence : ℚ)
    (assignment_group work_notes snow_category subcategory impact urgency : Option String)
    (timestamp : String) : Option Patch × Bool :=
  if dryRun then (none, true)
  else
    (some { ticket_id := ticket_id
          , payload := updatePayload category confidence assignment_group work_notes
              snow_category subcategory impact urgency timestamp }
    , httpOk)

/-- An incident snapshot as fetched by `get_new_incidents`; each field is
`incident.get(...)` (`short_description` with default `''`, the others with
default `None`). -/
structure Incident where
  sys_id : Option String
  number : Option String
  short_description : String
  category : Option String
deriving DecidableEq, Repr

/-- Python `x or ""` on an optional string (also how the CSV writer renders
`None`). -/
def orEmpty : Option String → String
  | none => ""
  | some s => s

/-- Python `str(b)` on a boolean. -/
def pyStrBool : Bool → String
  | true => "True"
  | false => "False"

/-- One record of the durable result feed written by
`output_writer.append_task_result` for every successfully classified
incident (the wall-clock `timestamp` and `execution_time_ms` fields are
environmental readings and are left out of the pure record). -/
structure ResultRecord where
  ticket_id : Option String
  input_text : String
  category : String
  confidence : ℚ
  matched_keywords : List String
deriving DecidableEq, Repr

/-- One data row of the per-run audit CSV written by
`output_writer.append_audit_entry` (the file also has a one-time header
row; `confidence` is serialized with `f"{confidence:.3f}"`, whose decimal
rendering is abstracted). -/
structure AuditRow where
  run_timestamp : String
  ticket_number : String
  ticket_id : String
  old_category : String
  new_category : String
  confidence : ℚ
  dry_run : String
deriving DecidableEq, Repr

/-- The per-cycle counters of `process_tickets`. -/
structure CycleStats where
  retrieved : Nat
  classified : Nat
  updated : Nat
  errors : Nat
deriving DecidableEq, Repr

/-- The environment of one cycle: the mode, the vocabularies fetched once
per cycle, and the external-world answers (model call outcome and PATCH
outcome per incident index, clock readings). -/
structure CycleEnv where
  dryRun : Bool
  categoryChoices : List String
  subcategoryChoices : List String
  impactChoices : List String
  urgencyChoices : List String
  oracle : Nat → Except String ModelResponse
  httpOk : Nat → Bool
  runTs : String
  now : Nat → String

/-- Accumulated state of the per-incident loop.  `cErrors` is a
specification-side counter, not present in the source: it counts exactly
the `errors` increments taken at the two classification-failure sites
(scheduler.py lines 149-152 and the generic per-incident handler at lines
222-225 catching exceptions raised by `classify`), so that the
classification share of `errors` can be stated. -/
structure CycleAcc where
  classified : Nat
  updated : Nat
  errors : Nat
  cErrors : Nat
  results : List ResultRecord
  audit : List AuditRow
  patches : List Patch
deriving DecidableEq, Repr

/-- The all-zero loop state at the start of a cycle. -/
def emptyAcc : CycleAcc :=
  { classified := 0, updated := 0, errors := 0, cErrors := 0
  , results := [], audit := [], patches := [] }

/-- The body of the per-incident loop of
`TaskParserScheduler.process_tickets` (scheduler.py lines 127-225) for the
incident at position `idx`:
classify; on any failure count an error and continue; on success append a
`ResultRecord` to the result feed, build the work note, call
`update_incident` (dry-run never issues a request), and on update success
count it and — when not in dry-run mode, i.e. when `audit_csv_path` was
prepared — append an `AuditRow`; on update failure count an error. -/
def processIncident (env : CycleEnv) (idx : Nat) (inc : Incident) (acc : CycleAcc) : CycleAcc :=
  match classify inc.short_description env.categoryChoices env.subcategoryChoices
      env.impactChoices env.urgencyChoices (env.oracle idx) with
  | ClassifyOutcome.failedDict _ =>
    { acc with errors := acc.errors + 1, cErrors := acc.cErrors + 1 }
  | ClassifyOutcome.raised _ =>
    { acc with errors := acc.errors + 1, cErrors := acc.cErrors + 1 }
  | ClassifyOutcome.success d =>
    let rec0 : ResultRecord :=
      { ticket_id := inc.sys_id, input_text := inc.short_description
      , category := d.category, confidence := d.confidence, matched_keywords := [] }
    let workNote :=
      "Auto-classified as " ++ d.category ++ " (" ++ fmtPercent1 d.confidence ++ ")\n"
        ++ "Keywords matched: \n"
        ++ "Processed by Task Classifier at " ++ env.now idx
    let upd := update_incident env.dryRun (env.httpOk idx) inc.sys_id d.category d.confidence
      none (some workNote) (some d.category) d.subcategory (some d.impact) (some d.urgency)
      (env.now idx)
    let acc1 := { acc with classified := acc.classified + 1, results := acc.results ++ [rec0] }
    let acc2 :=
      match upd.1 with
      | some p => { acc1 with patches := acc1.patches ++ [p] }
      | none => acc1
    if upd.2 then
      let acc3 := { acc2 with updated := acc2.updated + 1 }
      if env.dryRun then acc3
      else
        { acc3 with audit := acc3.audit ++
            [ { run_timestamp := env.runTs
              , ticket_number := orEmpty inc.number
              , ticket_id := orEmpty inc.sys_id
              , old_category := orEmpty inc.category
              , new_category := d.category
              , confidence := d.confidence
              , dry_run := pyStrBool env.dryRun } ] }
    else { acc2 with errors := acc2.errors + 1 }

/-- The sequential per-incident loop (`for idx, incident in
enumerate(incidents, 1)`), threading the loop state. -/
def runIncidents (env : CycleEnv) : Nat → List Incident → CycleAcc → CycleAcc
  | _, [], acc => acc
  | i, inc :: rest, acc => runIncidents env (i + 1) rest (processIncident env i inc acc)

/-- Everything one cycle produces: the returned stats and the records
appended to the three persistence targets.  `cErrors` is the
specification-side classification-error share of `stats.errors`. -/
structure CycleOut where
  stats : CycleStats
  results : List ResultRecord
  audit : List AuditRow
  patches : List Patch
  cErrors : Nat
deriving DecidableEq, Repr

/-- The staged-test truncation of the fetched batch (scheduler.py lines
100-103): `if sample_size and sample_size > 0: incidents = incidents[:sample_size]`. -/
def sampled (incidents : List Incident) (sample_size : Option Nat) : List Incident :=
  match sample_size with
  | some n => if 0 < n then incidents.take n else incidents
  | none => incidents

/-- `TaskParserScheduler.process_tickets` (scheduler.py lines 70-245).
`incidents` is the batch returned by `get_new_incidents(limit=limit)`; the
vocabularies live in `env` (fetched once per cycle).  An empty batch
returns immediately; staged-test sampling truncates to the first
`sample_size` incidents when `sample_size` is truthy; a missing
category/impact/urgency vocabulary aborts the cycle with only `retrieved`
set; otherwise the per-incident loop runs. -/
def process_tickets (env : CycleEnv) (incidents : List Incident)
    (sample_size : Option Nat) : CycleOut :=
  let retrieved := incidents.length
  if incidents.isEmpty then
    { stats := ⟨retrieved, 0, 0, 0⟩, results := [], audit := [], patches := [], cErrors := 0 }
  else
    let incidents2 := sampled incidents sample_size
    if env.categoryChoices.isEmpty || env.impactChoices.isEmpty || env.urgencyChoices.isEmpty then
      { stats := ⟨retrieved, 0, 0, 0⟩, results := [], audit := [], patches := [], cErrors := 0 }
    else
      let acc := runIncidents env 1 incidents2 emptyAcc
      { stats := ⟨retrieved, acc.classified, acc.updated, acc.errors⟩
      , results := acc.results, audit := acc.audit, patches := acc.patches
      , cErrors := acc.cErrors }

/-- The inverse PATCH issued by `rollback_from_audit.main` under `--commit`
for one audit row (rollback_from_audit.py lines 35-56): it calls
`ServiceNowConnector.update_incident(dry_run=False)` with
`category = old_category or ''`, `confidence = 0.0`, the rollback work
note, and `snow_category = old_category or ''`.  Note that the `patch_data`
dict built at lines 36-41 (with `u_auto_classified: 'false'` and an empty
`u_auto_classification_category`) is only used for its work note — the
fields actually sent are the ones `update_incident` builds. -/
def rollbackPatch (timestamp : String) (r : AuditRow) : Patch :=
  { ticket_id := some r.ticket_id
  , payload := updatePayload r.old_category 0 none
      (some ("Rollback: restored category to \x27" ++ r.old_category
        ++ "\x27 (was: \x27" ++ r.new_category ++ "\x27)"))
      (some r.old_category) none none none timestamp }

/-- The committed rollback loop over the audit rows in file order (`ts`
supplies the wall-clock reading of each `update_incident` call). -/
def rollbackRun (ts : Nat → String) : Nat → List AuditRow → List Patch
  | _, [] => []
  | i, r :: rest => rollbackPatch (ts i) r :: rollbackRun ts (i + 1) rest

/-- `rollback_from_audit.main`: the PATCH requests issued for an audit
file's data rows.  Without `--commit` every row is only printed and no
request is made. -/
def rollback_main (rows : List AuditRow) (commit : Bool) (ts : Nat → String) : List Patch :=
  if commit then rollbackRun ts 0 rows else []

/-- The cycle environment of the C9 counterexample: a live cycle whose
category vocabulary contains the empty string, which the model returns. -/
def envC9x : CycleEnv :=
  { dryRun := false, categoryChoices := [""], subcategoryChoices := []
  , impactChoices := ["1"], urgencyChoices := ["2"]
  , oracle := fun _ => Except.ok ⟨some "", none, some "1", some "2", some (JVal.jnum 1)⟩
  , httpOk := fun _ => true, runTs := "R", now := fun _ => "T" }

/-- The incident of the C9 counterexample. -/
def incC9x : Incident := ⟨some "id9", some "INC9", "broken", some "Old"⟩

/-- The cycle environment of the C2 witness and counterexample: a live
cycle that classifies and updates its single incident. -/
def envC2x : CycleEnv :=
  { dryRun := false, categoryChoices := ["Hardware"], subcategoryChoices := []
  , impactChoices := ["1"], urgencyChoices := ["2"]
  , oracle := fun _ => Except.ok ⟨some "Hardware", none, some "1", some "2", some (JVal.jnum 1)⟩
  , httpOk := fun _ => true, runTs := "R", now := fun _ => "T" }

/-- The incident of the C2 counterexample: its pre-update category is
absent, so the audit row's `old_category` is the empty string. -/
def incC2x : Incident := ⟨some "id2", some "INC2", "no email", none⟩

/-- The cycle environment of the C1 witness: the model returns the
out-of-vocabulary category "Hardware". -/
def envC1w : CycleEnv :=
  { dryRun := false, categoryChoices := ["Software"], subcategoryChoices := []
  , impactChoices := ["1"], urgencyChoices := ["2"]
  , oracle := fun _ => Except.ok ⟨some "Hardware", none, some "1", some "2", none⟩
  , httpOk := fun _ => true, runTs := "R", now := fun _ => "T" }

/-- The incident of the C1 witness. -/
def incC1w : Incident := ⟨some "id0", some "INC0", "screen cracked", some "Old"⟩

/-- The cycle environment of the C8 witness. -/
def envC8w : CycleEnv :=
  { dryRun := true, categoryChoices := ["HW"], subcategoryChoices := []
  , impactChoices := ["1"], urgencyChoices := ["2"]
  , oracle := fun _ => Except.ok ⟨some "HW", none, some "1", some "2", none⟩
  , httpOk := fun _ => true, runTs := "R", now := fun _ => "T" }

/-- The empty-description incident of the C8 witness. -/
def incC8w : Incident := ⟨some "idE", some "INCE", "", none⟩

/-- The audit row of the C3 failing input. -/
def rowC3 : AuditRow :=
  ⟨"20260112T000000Z", "INC0001", "abc123", "Hardware", "Software", 95/100, "False"⟩

lemma getField_cons (k : String) (v : FieldVal) (l : List (String × FieldVal)) (k2 : String) :
    getField ((k, v) :: l) k2 = if k = k2 then some v else getField l k2 := rfl

lemma getField_addIf_ne (k : String) (v : Option String) (rest : List (String × FieldVal))
    (k2 : String) (h : k ≠ k2) : getField (addIf k v ++ rest) k2 = getField rest k2 := by
  rcases v with _ | s
  · simp [addIf]
  · by_cases hs : s = ""
    · simp [addIf, hs]
    · simp [addIf, hs, getField_cons, h]

/-- Sampling never enlarges the batch. -/
lemma sampled_length_le (incidents : List Incident) (sample_size : Option Nat) :
    (sampled incidents sample_size).length ≤ incidents.length := by
  rcases sample_size with _ | n
  · exact le_refl _
  · dsimp only [sampled]
    split
    · simp [List.length_take]
    · exact le_refl _

/-- The main-branch equation of `process_tickets`: with a non-empty batch
and non-empty required vocabularies, the cycle output is the loop output
over the sampled batch. -/
lemma process_tickets_main (env : CycleEnv) (incidents : List Incident)
    (sample_size : Option Nat) (he : incidents.isEmpty = false)
    (hv : (env.categoryChoices.isEmpty || env.impactChoices.isEmpty
      || env.urgencyChoices.isEmpty) = false) :
    process_tickets env incidents sample_size
      = { stats := ⟨incidents.length,
            (runIncidents env 1 (sampled incidents sample_size) emptyAcc).classified,
            (runIncidents env 1 (sampled incidents sample_size) emptyAcc).updated,
            (runIncidents env 1 (sampled incidents sample_size) emptyAcc).errors⟩
        , results := (runIncidents env 1 (sampled incidents sample_size) emptyAcc).results
        , audit := (runIncidents env 1 (sampled incidents sample_size) emptyAcc).audit
        , patches := (runIncidents env 1 (sampled incidents sample_size) emptyAcc).patches
        , cErrors := (runIncidents env 1 (sampled incidents sample_size) emptyAcc).cErrors } := by
  simp [process_tickets, he, hv]

/-- If classification of `inc` fails (FAILED dict or a raised exception),
the loop body only counts the error: nothing else of the loop state —
counters, result feed, audit file, outgoing requests — changes. -/
lemma processIncident_fail (env : CycleEnv) (i : Nat) (inc : Incident) (acc : CycleAcc)
    (h : isSuccessO (classify inc.short_description env.categoryChoices env.subcategoryChoices
      env.impactChoices env.urgencyChoices (env.oracle i)) = false) :
    processIncident env i inc acc
      = { acc with errors := acc.errors + 1, cErrors := acc.cErrors + 1 } := by
  unfold processIncident
  cases hc : classify inc.short_description env.categoryChoices env.subcategoryChoices
      env.impactChoices env.urgencyChoices (env.oracle i) with
  | failedDict s => rfl
  | raised m => rfl
  | success d => rw [hc] at h; simp [isSuccessO] at h

/-- Exhaustive shape analysis of one loop-body step: classification failure,
dry-run success, live success with applied update, or live update failure. -/
lemma processIncident_cases (env : CycleEnv) (i : Nat) (inc : Incident) (acc : CycleAcc) :
    processIncident env i inc acc
        = { acc with errors := acc.errors + 1, cErrors := acc.cErrors + 1 }
    ∨ (env.dryRun = true ∧ ∃ r, processIncident env i inc acc =
        { classified := acc.classified + 1, updated := acc.updated + 1, errors := acc.errors
        , cErrors := acc.cErrors, results := acc.results ++ [r], audit := acc.audit
        , patches := acc.patches })
    ∨ (env.dryRun = false ∧ ∃ r p row, processIncident env i inc acc =
        { classified := acc.classified + 1, updated := acc.updated + 1, errors := acc.errors
        , cErrors := acc.cErrors, results := acc.results ++ [r], audit := acc.audit ++ [row]
        , patches := acc.patches ++ [p] })
    ∨ (env.dryRun = false ∧ ∃ r p, processIncident env i inc acc =
        { classified := acc.classified + 1, updated := acc.updated, errors := acc.errors + 1
        , cErrors := acc.cErrors, results := acc.results ++ [r], audit := acc.audit
        , patches := acc.patches ++ [p] }) := by
  unfold processIncident
  cases hc : classify inc.short_description env.categoryChoices env.subcategoryChoices
      env.impactChoices env.urgencyChoices (env.oracle i) with
  | failedDict s => exact Or.inl rfl
  | raised m => exact Or.inl rfl
  | success d =>
    cases hd : env.dryRun with
    | true => exact Or.inr (Or.inl ⟨rfl, _, rfl⟩)
    | false =>
      cases hok : env.httpOk i with
      | true => exact Or.inr (Or.inr (Or.inl ⟨rfl, _, _, _, rfl⟩))
      | false => exact Or.inr (Or.inr (Or.inr ⟨rfl, _, _, rfl⟩))

/-- Per-step counter bounds: at most one classification outcome per
incident, updates only on classified incidents. -/
lemma step_bounds (env : CycleEnv) (i : Nat) (inc : Incident) (acc : CycleAcc) :
    acc.classified ≤ (processIncident env i inc acc).classified
    ∧ (processIncident env i inc acc).classified ≤ acc.classified + 1
    ∧ (processIncident env i inc acc).updated + acc.classified
        ≤ (processIncident env i inc acc).classified + acc.updated
    ∧ acc.updated ≤ (processIncident env i inc acc).updated
    ∧ (processIncident env i inc acc).classified + (processIncident env i inc acc).cErrors
        ≤ acc.classified + acc.cErrors + 1
    ∧ (processIncident env i inc acc).results.length + acc.classified
        = (processIncident env i inc acc).classified + acc.results.length := by
  rcases processIncident_cases env i inc acc with heq | ⟨hd, r, heq⟩ | ⟨hd, r, p, row, heq⟩
    | ⟨hd, r, p, heq⟩ <;> rw [heq] <;> simp <;> omega

/-- Per-step audit/updated lockstep in live mode. -/
lemma step_audit_live (env : CycleEnv) (i : Nat) (inc : Incident) (acc : CycleAcc)
    (hd : env.dryRun = false) :
    (processIncident env i inc acc).audit.length + acc.updated
      = (processIncident env i inc acc).updated + acc.audit.length := by
  rcases processIncident_cases env i inc acc with heq | ⟨hd2, r, heq⟩ | ⟨hd2, r, p, row, heq⟩
    | ⟨hd2, r, p, heq⟩
  · rw [heq]; dsimp only; omega
  · rw [hd] at hd2; exact absurd hd2 (by simp)
  · rw [heq]; dsimp only; simp only [List.length_append, List.length_cons, List.length_nil]; omega
  · rw [heq]; dsimp only; omega

/-- Per-step frame in dry-run mode: no PATCH issued, no audit row. -/
lemma step_dry (env : CycleEnv) (i : Nat) (inc : Incident) (acc : CycleAcc)
    (hd : env.dryRun = true) :
    (processIncident env i inc acc).patches = acc.patches
    ∧ (processIncident env i inc acc).audit = acc.audit := by
  rcases processIncident_cases env i inc acc with heq | ⟨hd2, r, heq⟩ | ⟨hd2, r, p, row, heq⟩
    | ⟨hd2, r, p, heq⟩
  · rw [heq]; exact ⟨rfl, rfl⟩
  · rw [heq]; exact ⟨rfl, rfl⟩
  · rw [hd] at hd2; exact absurd hd2 (by simp)
  · rw [hd] at hd2; exact absurd hd2 (by simp)

/-- Loop-level counter invariants, by induction over the batch. -/
lemma runIncidents_counts (env : CycleEnv) (l : List Incident) : ∀ (i : Nat) (acc : CycleAcc),
    (runIncidents env i l acc).classified ≤ acc.classified + l.length
    ∧ (runIncidents env i l acc).updated + acc.classified
        ≤ (runIncidents env i l acc).classified + acc.updated
    ∧ (runIncidents env i l acc).classified + (runIncidents env i l acc).cErrors
        ≤ acc.classified + acc.cErrors + l.length
    ∧ (runIncidents env i l acc).results.length + acc.classified
        = (runIncidents env i l acc).classified + acc.results.length := by
  induction l with
  | nil => intro i acc; simp [runIncidents]; omega
  | cons inc rest ih =>
    intro i acc
    simp only [runIncidents, List.length_cons]
    have hs := step_bounds env i inc acc
    have hr := ih (i + 1) (processIncident env i inc acc)
    omega

/-- Loop-level audit/updated lockstep in live mode. -/
lemma runIncidents_audit_live (env : CycleEnv) (l : List Incident) (hd : env.dryRun = false) :
    ∀ (i : Nat) (acc : CycleAcc),
    (runIncidents env i l acc).audit.length + acc.updated
      = (runIncidents env i l acc).updated + acc.audit.length := by
  induction l with
  | nil => intro i acc; simp [runIncidents]; omega
  | cons inc rest ih =>
    intro i acc
    simp only [runIncidents]
    have hs := step_audit_live env i inc acc hd
    have hs2 := step_bounds env i inc acc
    have hr := ih (i + 1) (processIncident env i inc acc)
    omega

/-- Loop-level frame in dry-run mode: the PATCH list and the audit file are
untouched by the whole loop. -/
lemma runIncidents_dry (env : CycleEnv) (l : List Incident) (hd : env.dryRun = true) :
    ∀ (i : Nat) (acc : CycleAcc),
    (runIncidents env i l acc).patches = acc.patches
    ∧ (runIncidents env i l acc).audit = acc.audit := by
  induction l with
  | nil => intro i acc; simp [runIncidents]
  | cons inc rest ih =>
    intro i acc
    simp only [runIncidents]
    have hs := step_dry env i inc acc hd
    have hr := ih (i + 1) (processIncident env i inc acc)
    exact ⟨hr.1.trans hs.1, hr.2.trans hs.2⟩

/-- The standard `category` entry of the outgoing payload: present (and
truncated to 40 characters) exactly when `snow_category` is truthy. -/
lemma getField_updatePayload_category (category : String) (confidence : ℚ)
    (assignment_group work_notes snow_category subcategory impact urgency : Option String)
    (timestamp : String) :
    getField (updatePayload category confidence assignment_group work_notes snow_category
        subcategory impact urgency timestamp) "category"
      = match snow_category with
        | none => none
        | some s => if s = "" then none else some (FieldVal.str (pyTake s 40)) := by
  unfold updatePayload
  simp only [List.cons_append, List.nil_append, List.append_assoc]
  rw [getField_cons, if_neg (by decide), getField_cons, if_neg (by decide),
    getField_cons, if_neg (by decide), getField_cons, if_neg (by decide),
    getField_addIf_ne _ _ _ _ (by decide)]
  rcases snow_category with _ | s
  · dsimp only
    rw [List.nil_append, getField_addIf_ne _ _ _ _ (by decide),
      getField_addIf_ne _ _ _ _ (by decide), getField_addIf_ne _ _ _ _ (by decide),
      getField_cons, if_neg (by decide)]
    rfl
  · dsimp only
    by_cases hs : s = ""
    · rw [if_pos hs, List.nil_append, getField_addIf_ne _ _ _ _ (by decide),
        getField_addIf_ne _ _ _ _ (by decide), getField_addIf_ne _ _ _ _ (by decide),
        getField_cons, if_neg (by decide), if_pos hs]
      rfl
    · rw [if_neg hs, List.cons_append, getField_cons, if_pos rfl, if_neg hs]

/-- The four bookkeeping entries always set by `update_incident`. -/
lemma getField_updatePayload_markers (category : String) (confidence : ℚ)
    (assignment_group work_notes snow_category subcategory impact urgency : Option String)
    (timestamp : String) :
    getField (updatePayload category confidence assignment_group work_notes snow_category
        subcategory impact urgency timestamp) "u_auto_classification_category"
      = some (FieldVal.str category)
    ∧ getField (updatePayload category confidence assignment_group work_notes snow_category
        subcategory impact urgency timestamp) "u_confidence_score"
      = some (FieldVal.num (roundTo 2 (confidence * 100)))
    ∧ getField (updatePayload category confidence assignment_group work_notes snow_category
        subcategory impact urgency timestamp) "u_auto_classified"
      = some (FieldVal.str "true")
    ∧ getField (updatePayload category confidence assignment_group work_notes snow_category
        subcategory impact urgency timestamp) "u_classification_timestamp"
      = some (FieldVal.str timestamp) := by
  unfold updatePayload
  simp only [List.cons_append, List.nil_append, List.append_assoc]
  refine ⟨?_, ?_, ?_, ?_⟩
  · rw [getField_cons, if_pos rfl]
  · rw [getField_cons, if_neg (by decide), getField_cons, if_pos rfl]
  · rw [getField_cons, if_neg (by decide), getField_cons, if_neg (by decide),
      getField_cons, if_pos rfl]
  · rw [getField_cons, if_neg (by decide), getField_cons, if_neg (by decide),
      getField_cons, if_neg (by decide), getField_cons, if_pos rfl]

/-- With a non-empty description and a parsed model response, `classify`
either raises or returns the SUCCESS dict. -/
lemma classify_ok_cases (d : String) (cc sc ic uc : List String) (r : ModelResponse)
    (hd : d ≠ "") :
    (∃ m, classify d cc sc ic uc (Except.ok r) = ClassifyOutcome.raised m)
    ∨ (∃ det, classify d cc sc ic uc (Except.ok r) = ClassifyOutcome.success det) := by
  unfold classify
  rw [if_neg hd]
  dsimp only
  split
  · exact Or.inl ⟨_, rfl⟩
  · split
    · exact Or.inl ⟨_, rfl⟩
    · split
      · exact Or.inl ⟨_, rfl⟩
      · split
        · exact Or.inl ⟨_, rfl⟩
        · exact Or.inr ⟨_, rfl⟩

/-- A successful classification passed every vocabulary check, in the
source's order and with the source's truthiness guard on subcategory. -/
lemma classify_success_mem (d : String) (cc sc ic uc : List String) (r : ModelResponse)
    (det : Details) (h : classify d cc sc ic uc (Except.ok r) = ClassifyOutcome.success det) :
    optMem r.category cc = true
    ∧ (truthy r.subcategory = true → optMem r.subcategory sc = true)
    ∧ optMem r.impact ic = true
    ∧ optMem r.urgency uc = true := by
  by_cases hd : d = ""
  · subst hd; simp [classify] at h
  · unfold classify at h
    rw [if_neg hd] at h
    dsimp only at h
    split at h
    · exact absurd h (by simp)
    · split at h
      · exact absurd h (by simp)
      · split at h
        · exact absurd h (by simp)
        · split at h
          · exact absurd h (by simp)
          · rename_i h1 h2 h3 h4
            simp only [Bool.not_eq_true, Bool.not_eq_false, Bool.not_eq_true',
              Bool.not_eq_false'] at h1 h2 h3 h4
            refine ⟨h1, ?_, h3, h4⟩
            intro ht
            rcases Bool.and_eq_false_iff.mp h2 with hf | hf
            · rw [ht] at hf; exact absurd hf (by simp)
            · simpa using hf

/-- The rollback patches satisfy the category-restoration relation row by
row (in file order). -/
lemma rollbackRun_forall2 (ts : Nat → String) (rows : List AuditRow) : ∀ k : Nat,
    List.Forall₂ (fun (r : AuditRow) (p : Patch) =>
      r.old_category ≠ "" →
        getField p.payload "category" = some (FieldVal.str (pyTake r.old_category 40)))
      rows (rollbackRun ts k rows) := by
  induction rows with
  | nil => intro k; exact List.Forall₂.nil
  | cons r rest ih =>
    intro k
    refine List.Forall₂.cons ?_ (ih (k + 1))
    intro h
    simp only [rollbackPatch]
    rw [getField_updatePayload_category]
    dsimp only
    rw [if_neg h]

/-- C4: if the fetched category, impact, or urgency vocabulary is empty
while the fetched incident list is non-empty, the cycle aborts before any
per-incident work: no classification call, no update attempt, no persisted
record, and the returned stats are
`{retrieved := R, classified := 0, updated := 0, errors := 0}`. -/
theorem C4_missing_vocabulary_aborts (env : CycleEnv) (incidents : List Incident)
    (sample_size : Option Nat) (hne : incidents ≠ [])
    (hvoc : env.categoryChoices = [] ∨ env.impactChoices = [] ∨ env.urgencyChoices = []) :
    process_tickets env incidents sample_size
      = { stats := ⟨incidents.length, 0, 0, 0⟩
        , results := [], audit := [], patches := [], cErrors := 0 } := by
  have hne2 : incidents.isEmpty = false := by
    cases incidents with
    | nil => exact absurd rfl hne
    | cons a l => rfl
  have hb : (env.categoryChoices.isEmpty || env.impactChoices.isEmpty
      || env.urgencyChoices.isEmpty) = true := by
    rcases hvoc with h | h | h <;> simp [h]
  simp [process_tickets, hne2, hb]

/-- C4 witness: a one-incident batch with an empty impact vocabulary. -/
theorem C4_missing_vocabulary_aborts_witness :
    process_tickets
      { dryRun := true, categoryChoices := ["a"], subcategoryChoices := []
      , impactChoices := [], urgencyChoices := ["1"]
      , oracle := fun _ => Except.error "net", httpOk := fun _ => true
      , runTs := "R", now := fun _ => "T" }
      [⟨none, none, "d", none⟩] none
      = { stats := ⟨1, 0, 0, 0⟩, results := [], audit := [], patches := [], cErrors := 0 } :=
  C4_missing_vocabulary_aborts _ _ none (by simp) (Or.inr (Or.inl rfl))

/-- C5: for every completed cycle, retrieved ≥ classified ≥ updated, and
classified plus the classification-failure share of the errors is at most
retrieved. -/
theorem C5_counter_invariants (env : CycleEnv) (incidents : List Incident)
    (sample_size : Option Nat) :
    (process_tickets env incidents sample_size).stats.classified
        ≤ (process_tickets env incidents sample_size).stats.retrieved
    ∧ (process_tickets env incidents sample_size).stats.updated
        ≤ (process_tickets env incidents sample_size).stats.classified
    ∧ (process_tickets env incidents sample_size).stats.classified
        + (process_tickets env incidents sample_size).cErrors
        ≤ (process_tickets env incidents sample_size).stats.retrieved := by
  cases he : incidents.isEmpty with
  | true => simp [process_tickets, he]
  | false =>
    cases hv : (env.categoryChoices.isEmpty || env.impactChoices.isEmpty
        || env.urgencyChoices.isEmpty) with
    | true => simp [process_tickets, he, hv]
    | false =>
      have hlen : (sampled incidents sample_size).length ≤ incidents.length :=
        sampled_length_le incidents sample_size
      have hc := runIncidents_counts env (sampled incidents sample_size) 1 emptyAcc
      rw [process_tickets_main env incidents sample_size he hv]
      simp only [emptyAcc] at hc ⊢
      omega

/-- C6: a dry-run cycle issues no PATCH to the ticket source and writes no
audit row, while the result feed grows by one record per classified
incident; moreover `update_incident` in dry-run mode reports success
without building any request. -/
theorem C6_dry_run_frame (env : CycleEnv) (incidents : List Incident)
    (sample_size : Option Nat) (hd : env.dryRun = true) :
    (process_tickets env incidents sample_size).patches = []
    ∧ (process_tickets env incidents sample_size).audit = []
    ∧ (process_tickets env incidents sample_size).results.length
        = (process_tickets env incidents sample_size).stats.classified
    ∧ (∀ (httpOk : Bool) (ticket_id : Option String) (category : String) (confidence : ℚ)
        (ag wn sc sub imp urg : Option String) (ts : String),
        update_incident true httpOk ticket_id category confidence ag wn sc sub imp urg ts
          = (none, true)) := by
  refine ?_
  cases he : incidents.isEmpty with
  | true =>
    simp only [process_tickets, he]
    exact ⟨rfl, rfl, rfl, fun _ _ _ _ _ _ _ _ _ _ _ => rfl⟩
  | false =>
    cases hv : (env.categoryChoices.isEmpty || env.impactChoices.isEmpty
        || env.urgencyChoices.isEmpty) with
    | true =>
      simp only [process_tickets, he, hv]
      exact ⟨rfl, rfl, rfl, fun _ _ _ _ _ _ _ _ _ _ _ => rfl⟩
    | false =>
      have hdry := runIncidents_dry env (sampled incidents sample_size) hd 1 emptyAcc
      have hc := runIncidents_counts env (sampled incidents sample_size) 1 emptyAcc
      rw [process_tickets_main env incidents sample_size he hv]
      simp only [emptyAcc, List.length_nil] at hdry hc ⊢
      exact ⟨hdry.1, hdry.2, by omega, fun _ _ _ _ _ _ _ _ _ _ _ => rfl⟩

/-- C6 witness: a dry-run cycle over one classifiable incident. -/
theorem C6_dry_run_frame_witness :
    (process_tickets
      { dryRun := true, categoryChoices := ["HW"], subcategoryChoices := ["net"]
      , impactChoices := ["1"], urgencyChoices := ["2"]
      , oracle := fun _ => Except.ok ⟨some "HW", none, some "1", some "2", some (JVal.jnum 1)⟩
      , httpOk := fun _ => true, runTs := "R", now := fun _ => "T" }
      [⟨some "i1", some "INC1", "vpn down", some "old"⟩] none).patches = []
    ∧ (process_tickets
      { dryRun := true, categoryChoices := ["HW"], subcategoryChoices := ["net"]
      , impactChoices := ["1"], urgencyChoices := ["2"]
      , oracle := fun _ => Except.ok ⟨some "HW", none, some "1", some "2", some (JVal.jnum 1)⟩
      , httpOk := fun _ => true, runTs := "R", now := fun _ => "T" }
      [⟨some "i1", some "INC1", "vpn down", some "old"⟩] none).audit = []
    ∧ (process_tickets
      { dryRun := true, categoryChoices := ["HW"], subcategoryChoices := ["net"]
      , impactChoices := ["1"], urgencyChoices := ["2"]
      , oracle := fun _ => Except.ok ⟨some "HW", none, some "1", some "2", some (JVal.jnum 1)⟩
      , httpOk := fun _ => true, runTs := "R", now := fun _ => "T" }
      [⟨some "i1", some "INC1", "vpn down", some "old"⟩] none).results.length
        = (process_tickets
      { dryRun := true, categoryChoices := ["HW"], subcategoryChoices := ["net"]
      , impactChoices := ["1"], urgencyChoices := ["2"]
      , oracle := fun _ => Except.ok ⟨some "HW", none, some "1", some "2", some (JVal.jnum 1)⟩
      , httpOk := fun _ => true, runTs := "R", now := fun _ => "T" }
      [⟨some "i1", some "INC1", "vpn down", some "old"⟩] none).stats.classified
    ∧ (∀ (httpOk : Bool) (ticket_id : Option String) (category : String) (confidence : ℚ)
        (ag wn sc sub imp urg : Option String) (ts : String),
        update_incident true httpOk ticket_id category confidence ag wn sc sub imp urg ts
          = (none, true)) :=
  C6_dry_run_frame _ _ none rfl

/-- C7: confidence normalization never rejects: a numeric value (anything
Python `float()` accepts) is kept as-is; otherwise a string is stripped,
lowercased and mapped high→0.9, medium→0.6, low→0.3, anything else→0.0;
non-string non-numeric values map to 0.0; in particular "High", "MEDIUM",
"low", 0.73 and "not-a-number" yield 0.9, 0.6, 0.3, 0.73, 0.0. -/
theorem C7_confidence_normalization :
    (∀ q : ℚ, normalizeConfidence (JVal.jnum q) = q)
    ∧ (∀ s : String, pyFloat? (JVal.jstr s) = none →
        normalizeConfidence (JVal.jstr s)
          = (if pyLower (pyStrip s) = "high" then 9/10
             else if pyLower (pyStrip s) = "medium" then 6/10
             else if pyLower (pyStrip s) = "low" then 3/10
             else 0))
    ∧ (∀ v : JVal, pyFloat? v = none → (∀ s : String, v ≠ JVal.jstr s) →
        normalizeConfidence v = 0)
    ∧ normalizeConfidence (JVal.jstr "High") = 9/10
    ∧ normalizeConfidence (JVal.jstr "MEDIUM") = 6/10
    ∧ normalizeConfidence (JVal.jstr "low") = 3/10
    ∧ normalizeConfidence (JVal.jnum (73/100)) = 73/100
    ∧ normalizeConfidence (JVal.jstr "not-a-number") = 0 := by
  refine ⟨fun q => rfl, ?_, ?_, rfl, rfl, rfl, rfl, rfl⟩
  · intro s h
    unfold normalizeConfidence
    rw [h]
  · intro v h hs
    cases v with
    | jnull => rfl
    | jbool b => simp [pyFloat?] at h
    | jnum q => simp [pyFloat?] at h
    | jstr s => exact absurd rfl (hs s)
    | jother => rfl

/-- C7 witness: a non-numeric, non-string value maps to 0. -/
theorem C7_confidence_normalization_witness :
    normalizeConfidence JVal.jnull = 0 :=
  C7_confidence_normalization.2.2.1 JVal.jnull rfl (fun _ h => JVal.noConfusion h)

/-- C10: when `snow_category` is `None` or the empty string, the outgoing
payload omits the standard `category` field entirely; consequently a
rollback row with an empty `old_category` issues an inverse PATCH without
a `category` entry, so the ticket's category is not restored to the empty
value. -/
theorem C10_empty_snow_category_omits_field :
    (∀ (category : String) (confidence : ℚ) (ag wn sub imp urg : Option String)
        (ts : String) (sc : Option String), sc = none ∨ sc = some "" →
        getField (updatePayload category confidence ag wn sc sub imp urg ts) "category" = none)
    ∧ (∀ (ts : String) (r : AuditRow), r.old_category = "" →
        getField (rollbackPatch ts r).payload "category" = none) := by
  constructor
  · intro category confidence ag wn sub imp urg ts sc hsc
    rcases hsc with h | h <;> subst h <;> rw [getField_updatePayload_category]
    dsimp only
    rw [if_pos rfl]
  · intro ts r h
    simp only [rollbackPatch]
    rw [getField_updatePayload_category]
    dsimp only
    rw [if_pos h]

/-- C10 witness: a `None` `snow_category` and an empty-`old_category`
audit row. -/
theorem C10_empty_snow_category_omits_field_witness :
    getField (updatePayload "HW" 1 none none none none none none "T") "category" = none
    ∧ getField (rollbackPatch "T" ⟨"R", "INC1", "id1", "", "HW", 1, "False"⟩).payload
        "category" = none :=
  ⟨C10_empty_snow_category_omits_field.1 "HW" 1 none none none none none "T" none (Or.inl rfl),
   C10_empty_snow_category_omits_field.2 "T" ⟨"R", "INC1", "id1", "", "HW", 1, "False"⟩ rfl⟩

/-- C9 (amended): for every live update whose classified category is
non-empty (an empty classified category omits the standard field, see C10),
the payload's `category` is the classified category truncated to 40
characters, and the update also sets `u_auto_classification_category` to
the classified category, `u_confidence_score` to confidence×100 rounded to
2 decimals, `u_auto_classified` to `"true"`, and the classification
timestamp. -/
theorem C9_live_update_fields (httpOk : Bool) (ticket_id : Option String)
    (category : String) (confidence : ℚ) (ag wn sub imp urg : Option String) (ts : String)
    (hcat : category ≠ "") :
    (update_incident false httpOk ticket_id category confidence ag wn (some category)
        sub imp urg ts).1
      = some { ticket_id := ticket_id
             , payload := updatePayload category confidence ag wn (some category) sub imp urg ts }
    ∧ getField (updatePayload category confidence ag wn (some category) sub imp urg ts)
        "category" = some (FieldVal.str (pyTake category 40))
    ∧ getField (updatePayload category confidence ag wn (some category) sub imp urg ts)
        "u_auto_classification_category" = some (FieldVal.str category)
    ∧ getField (updatePayload category confidence ag wn (some category) sub imp urg ts)
        "u_confidence_score" = some (FieldVal.num (roundTo 2 (confidence * 100)))
    ∧ getField (updatePayload category confidence ag wn (some category) sub imp urg ts)
        "u_auto_classified" = some (FieldVal.str "true")
    ∧ getField (updatePayload category confidence ag wn (some category) sub imp urg ts)
        "u_classification_timestamp" = some (FieldVal.str ts) := by
  have hm := getField_updatePayload_markers category confidence ag wn (some category)
    sub imp urg ts
  refine ⟨rfl, ?_, hm.1, hm.2.1, hm.2.2.1, hm.2.2.2⟩
  rw [getField_updatePayload_category]
  dsimp only
  rw [if_neg hcat]

/-- C9 witness: a concrete live update with category "Hardware". -/
theorem C9_live_update_fields_witness :
    (update_incident false true (some "id1") "Hardware" 1 none none (some "Hardware")
        none none none "T").1
      = some { ticket_id := some "id1"
             , payload := updatePayload "Hardware" 1 none none (some "Hardware") none none none "T" }
    ∧ getField (updatePayload "Hardware" 1 none none (some "Hardware") none none none "T")
        "category" = some (FieldVal.str (pyTake "Hardware" 40))
    ∧ getField (updatePayload "Hardware" 1 none none (some "Hardware") none none none "T")
        "u_auto_classification_category" = some (FieldVal.str "Hardware")
    ∧ getField (updatePayload "Hardware" 1 none none (some "Hardware") none none none "T")
        "u_confidence_score" = some (FieldVal.num (roundTo 2 (1 * 100)))
    ∧ getField (updatePayload "Hardware" 1 none none (some "Hardware") none none none "T")
        "u_auto_classified" = some (FieldVal.str "true")
    ∧ getField (updatePayload "Hardware" 1 none none (some "Hardware") none none none "T")
        "u_classification_timestamp" = some (FieldVal.str "T") :=
  C9_live_update_fields true (some "id1") "Hardware" 1 none none none none none "T"
    (by decide)

/-- C9 counterexample: a live cycle classifies and updates one incident
whose classified category is the empty string (validation passes because
the empty string is in the vocabulary), yet the issued PATCH contains no
standard `category` entry at all — so the category value sent is not the
classified category truncated to 40 characters, refuting the claim as
stated. -/
theorem C9_counterexample :
    (process_tickets envC9x [incC9x] none).stats = ⟨1, 1, 1, 0⟩
    ∧ (process_tickets envC9x [incC9x] none).patches.map
        (fun p => getField p.payload "category") = [none] := by decide

/-- C2 (amended): a live cycle writes exactly one audit row per successful
update, and the committed rollback of that audit file issues exactly one
inverse update per row, each restoring the row's `old_category` (up to the
connector's 40-character truncation) whenever `old_category` is non-empty;
a row with empty `old_category` yields a PATCH without a `category` entry
(see C10). -/
theorem C2_audit_rollback_roundtrip (env : CycleEnv) (incidents : List Incident)
    (sample_size : Option Nat) (ts : Nat → String) (hlive : env.dryRun = false) :
    (process_tickets env incidents sample_size).audit.length
      = (process_tickets env incidents sample_size).stats.updated
    ∧ (rollback_main (process_tickets env incidents sample_size).audit true ts).length
      = (process_tickets env incidents sample_size).audit.length
    ∧ List.Forall₂ (fun (r : AuditRow) (p : Patch) =>
        r.old_category ≠ "" →
          getField p.payload "category" = some (FieldVal.str (pyTake r.old_category 40)))
      (process_tickets env incidents sample_size).audit
      (rollback_main (process_tickets env incidents sample_size).audit true ts) := by
  have h2 : ∀ rows : List AuditRow, rollback_main rows true ts = rollbackRun ts 0 rows :=
    fun rows => rfl
  refine ⟨?_, ?_, ?_⟩
  · cases he : incidents.isEmpty with
    | true => simp [process_tickets, he]
    | false =>
      cases hv : (env.categoryChoices.isEmpty || env.impactChoices.isEmpty
          || env.urgencyChoices.isEmpty) with
      | true => simp [process_tickets, he, hv]
      | false =>
        have ha := runIncidents_audit_live env (sampled incidents sample_size) hlive 1 emptyAcc
        rw [process_tickets_main env incidents sample_size he hv]
        simp only [emptyAcc, List.length_nil] at ha ⊢
        omega
  · rw [h2]
    exact (rollbackRun_forall2 ts _ 0).length_eq.symm
  · rw [h2]
    exact rollbackRun_forall2 ts _ 0

/-- C2 witness: the amended round-trip at a concrete live cycle. -/
theorem C2_audit_rollback_roundtrip_witness :
    (process_tickets envC2x [incC2x] none).audit.length
      = (process_tickets envC2x [incC2x] none).stats.updated
    ∧ (rollback_main (process_tickets envC2x [incC2x] none).audit true (fun _ => "T")).length
      = (process_tickets envC2x [incC2x] none).audit.length
    ∧ List.Forall₂ (fun (r : AuditRow) (p : Patch) =>
        r.old_category ≠ "" →
          getField p.payload "category" = some (FieldVal.str (pyTake r.old_category 40)))
      (process_tickets envC2x [incC2x] none).audit
      (rollback_main (process_tickets envC2x [incC2x] none).audit true (fun _ => "T")) :=
  C2_audit_rollback_roundtrip envC2x [incC2x] none (fun _ => "T") rfl

/-- C2 counterexample: a live cycle updates N = 1 ticket whose previous
category was empty; the audit row records `old_category = ""` and the
committed rollback issues one PATCH that contains no `category` entry, so
the inverse update does not set the ticket's category back to the row's
`old_category` — refuting the claim as stated. -/
theorem C2_counterexample :
    (process_tickets envC2x [incC2x] none).stats.updated = 1
    ∧ (process_tickets envC2x [incC2x] none).audit.map (fun r => r.old_category) = [""]
    ∧ (rollback_main (process_tickets envC2x [incC2x] none).audit true (fun _ => "T")).map
        (fun p => getField p.payload "category") = [none] := by decide

/-- C1 (amended): if the parsed model response has a category, impact, or
urgency outside its vocabulary, or a non-null non-empty subcategory outside
the subcategory vocabulary, then `classify` raises the invalid-enum
`ValueError` instead of returning a result, and the per-incident loop body
only counts an error: no update call, no result record, no audit row. -/
theorem C1_invalid_enum_rejected (env : CycleEnv) (i : Nat) (inc : Incident) (acc : CycleAcc)
    (r : ModelResponse) (hor : env.oracle i = Except.ok r)
    (hdesc : inc.short_description ≠ "")
    (hviol : optMem r.category env.categoryChoices = false
      ∨ (truthy r.subcategory = true ∧ optMem r.subcategory env.subcategoryChoices = false)
      ∨ optMem r.impact env.impactChoices = false
      ∨ optMem r.urgency env.urgencyChoices = false) :
    (∃ m, classify inc.short_description env.categoryChoices env.subcategoryChoices
        env.impactChoices env.urgencyChoices (env.oracle i) = ClassifyOutcome.raised m)
    ∧ processIncident env i inc acc
        = { acc with errors := acc.errors + 1, cErrors := acc.cErrors + 1 } := by
  rcases classify_ok_cases inc.short_description env.categoryChoices env.subcategoryChoices
      env.impactChoices env.urgencyChoices r hdesc with ⟨m, hm⟩ | ⟨det, hdet⟩
  · have hm2 : classify inc.short_description env.categoryChoices env.subcategoryChoices
        env.impactChoices env.urgencyChoices (env.oracle i) = ClassifyOutcome.raised m := by
      rw [hor]; exact hm
    exact ⟨⟨m, hm2⟩, processIncident_fail env i inc acc (by rw [hm2]; rfl)⟩
  · exfalso
    have hmem := classify_success_mem _ _ _ _ _ _ _ hdet
    rcases hviol with h | ⟨ht, h⟩ | h | h
    · rw [hmem.1] at h; exact Bool.noConfusion h
    · rw [hmem.2.1 ht] at h; exact Bool.noConfusion h
    · rw [hmem.2.2.1] at h; exact Bool.noConfusion h
    · rw [hmem.2.2.2] at h; exact Bool.noConfusion h

/-- C1 witness: the model's "Hardware" is outside the 1-item vocabulary
lacking it, so `classify` raises and the loop body only counts the
error. -/
theorem C1_invalid_enum_rejected_witness :
    (∃ m, classify incC1w.short_description envC1w.categoryChoices envC1w.subcategoryChoices
        envC1w.impactChoices envC1w.urgencyChoices (envC1w.oracle 1) = ClassifyOutcome.raised m)
    ∧ processIncident envC1w 1 incC1w emptyAcc
        = { emptyAcc with errors := emptyAcc.errors + 1, cErrors := emptyAcc.cErrors + 1 } :=
  C1_invalid_enum_rejected envC1w 1 incC1w emptyAcc
    ⟨some "Hardware", none, some "1", some "2", none⟩ rfl (by decide) (Or.inl (by decide))

/-- C1 counterexample: an empty-string subcategory is non-null and absent
from the subcategory vocabulary, yet `classify` returns a SUCCESS result
(the source's truthiness guard skips validation for empty strings), so the
claim as stated — which demands a failure for every non-null out-of-
vocabulary subcategory — is false. -/
theorem C1_counterexample :
    classify "printer broken" ["HW"] ["net"] ["1"] ["2"]
      (Except.ok ⟨some "HW", some "", some "1", some "2", some (JVal.jnum (1/2))⟩)
      = ClassifyOutcome.success ⟨"HW", some "", "1", "2", 1/2⟩ := rfl

/-- C8: an empty description yields the EMPTY_INPUT failure regardless of
the model-call outcome (the call is never consulted), and a classification
failure of the head incident only increments the error counters before the
loop processes the remaining incidents unchanged and in order. -/
theorem C8_empty_input_and_containment :
    (∀ (cc sc ic uc : List String) (mr : Except String ModelResponse),
        classify "" cc sc ic uc mr = ClassifyOutcome.failedDict "Empty description")
    ∧ (∀ (env : CycleEnv) (k : Nat) (inc : Incident) (rest : List Incident) (acc : CycleAcc),
        isSuccessO (classify inc.short_description env.categoryChoices env.subcategoryChoices
          env.impactChoices env.urgencyChoices (env.oracle k)) = false →
        runIncidents env k (inc :: rest) acc
          = runIncidents env (k + 1) rest
              { acc with errors := acc.errors + 1, cErrors := acc.cErrors + 1 }) := by
  constructor
  · intro cc sc ic uc mr; rfl
  · intro env k inc rest acc h
    have hstep := processIncident_fail env k inc acc h
    calc runIncidents env k (inc :: rest) acc
        = runIncidents env (k + 1) rest (processIncident env k inc acc) := rfl
      _ = runIncidents env (k + 1) rest
            { acc with errors := acc.errors + 1, cErrors := acc.cErrors + 1 } := by rw [hstep]

/-- C8 witness: the empty description fails regardless of the oracle, and
processing continues with the tail. -/
theorem C8_empty_input_and_containment_witness :
    classify "" ["HW"] [] ["1"] ["2"] (Except.error "network down")
      = ClassifyOutcome.failedDict "Empty description"
    ∧ runIncidents envC8w 1 [incC8w, ⟨some "id2", some "INC2", "vpn", none⟩] emptyAcc
      = runIncidents envC8w 2 [⟨some "id2", some "INC2", "vpn", none⟩]
          { emptyAcc with errors := emptyAcc.errors + 1, cErrors := emptyAcc.cErrors + 1 } :=
  ⟨C8_empty_input_and_containment.1 ["HW"] [] ["1"] ["2"] (Except.error "network down"),
   C8_empty_input_and_containment.2 envC8w 1 incC8w
     [⟨some "id2", some "INC2", "vpn", none⟩] emptyAcc (by decide)⟩

/-- C3 (code bug evidence): for the audit row restoring "Hardware" from
"Software", the committed rollback issues a PATCH whose work note and
`category` are as specified, but whose `u_auto_classified` field is the
string "true" and whose `u_auto_classification_category` is the restored
category — the auto-classification markers are re-asserted, not cleared.
The script's own `patch_data` (rollback_from_audit.py lines 36-41) sets
`u_auto_classified: 'false'` and an empty `u_auto_classification_category`,
but only its work note is ever passed on; `update_incident` then overwrites
the markers. -/
theorem C3_rollback_markers_not_cleared :
    (rollback_main [rowC3] true (fun _ => "T")).map
      (fun p => (getField p.payload "u_auto_classified",
                 getField p.payload "u_auto_classification_category",
                 getField p.payload "category",
                 getField p.payload "work_notes"))
      = [(some (FieldVal.str "true"),
          some (FieldVal.str "Hardware"),
          some (FieldVal.str "Hardware"),
          some (FieldVal.str
            "Rollback: restored category to \x27Hardware\x27 (was: \x27Software\x27)"))] := by
  decide

end ReAMP

